import Mathlib

/-
Verification of the notification-panel controller in
src/foodtruck/assets/js/foodtruck.js.

The file is a shallow embedding of the jQuery event handlers of that
script.  The DOM surface relevant to the claims is distilled to:

  * the `data-autohide` attribute of `#ft-publog` (a string attribute
    that is initially absent and is only ever assigned the strings
    "true" and "false");
  * whether `#ft-publog` is shown (`fadeIn`) or hidden (`fadeOut`);
  * the list of message elements currently attached as children of
    `#ft-publog-container` (identified by the order of their creation);
  * the set of `window.setTimeout` callbacks that have been scheduled by
    `onPublishEvent` and have not fired yet (identified by the same id
    as the message element each closes over).

Handlers are modelled as state transformers; the browser event loop is
modelled as folding a list of events over the state.  The 400ms fade of
a message element and the subsequent `removeMsgEl` continuation are
folded into the timer-fire step, matching the code, which performs no
further check between the fade and the removal.
-/

set_option autoImplicit false

namespace Foodtruck

/-- Value of the `data-autohide` string attribute on `#ft-publog`: absent
(never assigned), the string `"false"`, or the string `"true"`.  The code
only ever compares it with `== 'true'`. -/
inductive AttrVal
  | unset
  | strFalse
  | strTrue
deriving DecidableEq, Repr

/-- Delay passed to `window.setTimeout` in `onPublishEvent`. -/
def publishTimeoutMs : Nat := 4000

/-- Duration of `msgEl.fadeOut(400, removeMsgEl)`. -/
def msgFadeOutMs : Nat := 400

/-- Duration of `publogEl.fadeIn(200)` on first message. -/
def panelFadeInMs : Nat := 200

/-- Duration of `publogEl.fadeOut(200)` (close button and `removeMsgEl`). -/
def panelFadeOutMs : Nat := 200

/-- State of the publish-log panel.  `container` lists the ids of the
message `<div>` elements currently attached to `#ft-publog-container`;
`pending` lists the ids whose `setTimeout` callback has not fired yet;
`nextId` numbers the next message element to be created. -/
structure PanelState where
  autohideAttr : AttrVal
  visible : Bool
  container : List Nat
  pending : List Nat
  nextId : Nat
deriving DecidableEq, Repr

/-- Page-load state: attribute absent, panel hidden, no messages. -/
def initState : PanelState :=
  { autohideAttr := .unset, visible := false, container := [], pending := [], nextId := 0 }

/-- The `removeMsgEl` closure of `onPublishEvent` for message `i`:
`msgEl.remove()`, then if `containerEl.children().length == 0` the panel
is faded out (200ms). -/
def removeMsgEl (i : Nat) (s : PanelState) : PanelState :=
  let afterRemove : PanelState := { s with container := s.container.erase i }
  if afterRemove.container.length = 0 then
    { afterRemove with visible := false }
  else
    afterRemove

/-- Body of the `setTimeout` callback scheduled by `onPublishEvent` for
message `i`: if `publogEl.attr('data-autohide') == 'true'` at fire time,
run `msgEl.fadeOut(400, removeMsgEl)` (fade and removal folded into one
step, as the code re-checks nothing in between); otherwise do nothing. -/
def timeoutCallback (i : Nat) (s : PanelState) : PanelState :=
  if s.autohideAttr = AttrVal.strTrue then removeMsgEl i s else s

/-- The event-loop firing of the pending timer for message `i`: the
callback runs once and only if it is still pending; firing consumes the
pending entry. -/
def fireTimer (i : Nat) (s : PanelState) : PanelState :=
  if i ∈ s.pending then
    timeoutCallback i { s with pending := s.pending.erase i }
  else
    s

/-- `onPublishEvent`: create a fresh message element, schedule its 4000ms
timeout, then if `containerEl.children().length == 0` set
`data-autohide` to `'true'` and `fadeIn(200)` the panel, and finally
append the message element to the container. -/
def onPublishEvent (s : PanelState) : PanelState :=
  let i := s.nextId
  let withTimer : PanelState :=
    { s with pending := i :: s.pending, nextId := s.nextId + 1 }
  let shown : PanelState :=
    if withTimer.container.length = 0 then
      { withTimer with autohideAttr := AttrVal.strTrue, visible := true }
    else
      withTimer
  { shown with container := shown.container ++ [i] }

/-- The `mouseenter` handler on `#ft-publog`: set `data-autohide` to the
string `'false'`. -/
def onMouseEnter (s : PanelState) : PanelState :=
  { s with autohideAttr := AttrVal.strFalse }

/-- The click handler of the close button: `publogEl.fadeOut(200)`.  It
touches nothing else. -/
def onCloseClick (s : PanelState) : PanelState :=
  { s with visible := false }

/-- The `hide` handler on `#ft-publog`: `containerEl.empty()`, removing
every message element from the container. -/
def onHideEvent (s : PanelState) : PanelState :=
  { s with container := [] }

/-- Events the panel can receive: a pushed message, the firing of the
pending timer for message `i`, a pointer entering the panel, a click on
the close button, and the panel `hide` event. -/
inductive Ev
  | message
  | timerFire (i : Nat)
  | mouseEnter
  | closeClick
  | hideEvent
deriving DecidableEq, Repr

/-- Dispatch one event to its handler. -/
def step : Ev → PanelState → PanelState
  | .message => onPublishEvent
  | .timerFire i => fireTimer i
  | .mouseEnter => onMouseEnter
  | .closeClick => onCloseClick
  | .hideEvent => onHideEvent

/-- Run a sequence of events on the single-threaded event loop. -/
def run (evs : List Ev) (s : PanelState) : PanelState :=
  evs.foldl (fun t e => step e t) s

/-- The visibility invariant stated by the specification: the panel is
visible exactly when the container holds at least one message element. -/
def visibleIffNonempty (s : PanelState) : Prop :=
  s.visible = true ↔ s.container ≠ []

/-- Event alphabet under which the visibility invariant does hold: the
stand-alone close click is replaced by a close click immediately
followed by the panel `hide` cleanup, the coupling the specification
assumes for a manual close. -/
inductive TameEv
  | message
  | timerFire (i : Nat)
  | mouseEnter
  | closeThenHide
deriving DecidableEq, Repr

/-- Dispatch for the coupled alphabet; `closeThenHide` is the close
click followed at once by the `hide` cleanup. -/
def tameStep : TameEv → PanelState → PanelState
  | .message => onPublishEvent
  | .timerFire i => fireTimer i
  | .mouseEnter => onMouseEnter
  | .closeThenHide => fun s => onHideEvent (onCloseClick s)

/-- Run a sequence of coupled-alphabet events. -/
def tameRun (evs : List TameEv) (s : PanelState) : PanelState :=
  evs.foldl (fun t e => tameStep e t) s

/-- A message element `i` that can no longer be auto-removed: it sits in
the container, its timer is spent, and every id the program will still
allocate is larger, so no later timer can target it. -/
def lingering (i : Nat) (s : PanelState) : Prop :=
  i ∈ s.container ∧ i ∉ s.pending ∧ i < s.nextId

/-- Example state: one message element, its timer pending, after the
pointer entered the panel (`data-autohide` is `'false'`). -/
def hoveredOneMsg : PanelState :=
  { autohideAttr := .strFalse, visible := true, container := [0],
    pending := [0], nextId := 1 }

/-- Example state: one message element, its timer pending, with
`data-autohide` still `'true'`. -/
def freshOneMsg : PanelState :=
  { autohideAttr := .strTrue, visible := true, container := [0],
    pending := [0], nextId := 1 }

/-- State of the `EventSource` subscription to `/publish-log`: whether
the connection is open and how many transport errors have been logged
to the console. -/
structure SseState where
  isOpen : Bool
  loggedErrors : Nat
deriving DecidableEq, Repr

/-- Subscription state right after `new EventSource('/publish-log')`. -/
def sseInit : SseState := { isOpen := true, loggedErrors := 0 }

/-- The `source.onerror` handler: `console.log("Error with SSE, closing.", e)`
followed by `source.close()`. -/
def onSseError (s : SseState) : SseState :=
  { isOpen := false, loggedErrors := s.loggedErrors + 1 }

/-- Events delivered on the subscription: a `message` event (dispatched
to `onPublishEvent`, which never touches the connection) and a transport
error (dispatched to `source.onerror`). -/
inductive SseEv
  | messageEv
  | errorEv
deriving DecidableEq, Repr

/-- One delivery on the subscription.  A closed source delivers nothing,
and the script installs no transition that reopens it: `source.close()`
is final. -/
def sseStep (e : SseEv) (s : SseState) : SseState :=
  if s.isOpen then
    match e with
    | .messageEv => s
    | .errorEv => onSseError s
  else
    s

/-- Run a sequence of subscription events. -/
def sseRun (evs : List SseEv) (s : SseState) : SseState :=
  evs.foldl (fun t e => sseStep e t) s

/-- C1: on an `onPublishEvent` call, `data-autohide` is forced to
`'true'` exactly when the container held zero message elements at
arrival; on a call arriving while the container is non-empty the
attribute keeps its previous value. -/
theorem c1_autohide_only_set_on_empty_arrival (s : PanelState) :
    (onPublishEvent s).autohideAttr =
      if s.container = [] then AttrVal.strTrue else s.autohideAttr := by
  by_cases h : s.container = [] <;>
    simp [onPublishEvent, h, List.length_eq_zero]

/-- C2 counterexample: after `message` then `mouseEnter` the attribute is
`'false'`; the next `onPublishEvent` call (with one message pending, so
the container is non-empty) leaves it `'false'` instead of setting it
back to `'true'`, refuting the claim at this concrete input. -/
theorem c2_counterexample :
    (run [Ev.message, Ev.mouseEnter] initState).autohideAttr = AttrVal.strFalse ∧
      (onPublishEvent (run [Ev.message, Ev.mouseEnter] initState)).autohideAttr =
        AttrVal.strFalse := by
  decide

/-- C2 amended: after `onMouseEnter` has set `data-autohide` to
`'false'`, the next `onPublishEvent` call sets it back to `'true'` only
if the container is empty at arrival; while messages are still pending
it stays `'false'`. -/
theorem c2_message_restores_autohide_only_on_empty (s : PanelState)
    (h : s.autohideAttr = AttrVal.strFalse) :
    (onPublishEvent s).autohideAttr =
      if s.container = [] then AttrVal.strTrue else AttrVal.strFalse := by
  by_cases hc : s.container = [] <;>
    simp [onPublishEvent, hc, h, List.length_eq_zero]

/-- Witness for the amended C2: concrete hover state with one pending
message; the attribute stays `'false'` across the next message. -/
theorem c2_message_restores_autohide_only_on_empty_witness :
    (onPublishEvent
      { autohideAttr := .strFalse, visible := true, container := [0],
        pending := [0], nextId := 1 }).autohideAttr = AttrVal.strFalse := by
  simpa using c2_message_restores_autohide_only_on_empty
    { autohideAttr := .strFalse, visible := true, container := [0],
      pending := [0], nextId := 1 } rfl

/-- C4: an `onPublishEvent` call on an empty, hidden panel makes the
panel visible (a `fadeIn`, duration 200ms) and sets `data-autohide` to
`'true'`. -/
theorem c4_first_message_shows_panel (s : PanelState)
    (hempty : s.container = []) (_hhidden : s.visible = false) :
    (onPublishEvent s).visible = true ∧
      (onPublishEvent s).autohideAttr = AttrVal.strTrue ∧
      panelFadeInMs = 200 := by
  refine ⟨?_, ?_, rfl⟩ <;>
    simp [onPublishEvent, hempty, List.length_eq_zero]

/-- Witness for C4 at the page-load state. -/
theorem c4_first_message_shows_panel_witness :
    (onPublishEvent initState).visible = true ∧
      (onPublishEvent initState).autohideAttr = AttrVal.strTrue ∧
      panelFadeInMs = 200 :=
  c4_first_message_shows_panel initState rfl rfl

/-- C7: the close-button handler always hides the panel (a 200ms
`fadeOut`), whatever the message count, the pending timers or the
`data-autohide` attribute, and it changes nothing else. -/
theorem c7_manual_close_always_hides (s : PanelState) :
    (onCloseClick s).visible = false ∧
      (onCloseClick s).container = s.container ∧
      (onCloseClick s).pending = s.pending ∧
      (onCloseClick s).autohideAttr = s.autohideAttr ∧
      panelFadeOutMs = 200 :=
  ⟨rfl, rfl, rfl, rfl, rfl⟩

/-- C8: the timer callback never turns a hidden panel visible: its only
visibility effect is the `fadeOut` inside `removeMsgEl`, never a
`fadeIn`. -/
theorem c8_stale_timer_never_shows_panel (s : PanelState) (i : Nat)
    (h : s.visible = false) : (fireTimer i s).visible = false := by
  simp only [fireTimer, timeoutCallback, removeMsgEl]
  split
  · split
    · split
      · simp
      · simpa
    · simpa
  · exact h

/-- Witness for C8: message on an empty panel, manual close before the
4000ms timeout fires, then the stale timer for message 0 fires: the
panel stays hidden.  The timer is genuinely still pending there. -/
theorem c8_stale_timer_never_shows_panel_witness :
    0 ∈ (run [Ev.message, Ev.closeClick] initState).pending ∧
      (fireTimer 0 (run [Ev.message, Ev.closeClick] initState)).visible = false :=
  ⟨by decide,
    c8_stale_timer_never_shows_panel (run [Ev.message, Ev.closeClick] initState) 0
      (by decide)⟩

/-- C10: the only writers of `data-autohide` are `onMouseEnter` (to
`'false'`) and `onPublishEvent` on an empty container (to `'true'`); the
timer callback, the close-button handler and the `hide` cleanup never
touch it, and `onPublishEvent` on a non-empty container keeps its
value. -/
theorem c10_autohide_writers (s : PanelState) (i : Nat) :
    (fireTimer i s).autohideAttr = s.autohideAttr ∧
      (onCloseClick s).autohideAttr = s.autohideAttr ∧
      (onHideEvent s).autohideAttr = s.autohideAttr ∧
      (onMouseEnter s).autohideAttr = AttrVal.strFalse ∧
      (onPublishEvent s).autohideAttr =
        (if s.container = [] then AttrVal.strTrue else s.autohideAttr) := by
  refine ⟨?_, rfl, rfl, rfl, ?_⟩
  · simp only [fireTimer, timeoutCallback, removeMsgEl]
    split
    · split
      · split <;> simp_all
      · rfl
    · rfl
  · by_cases h : s.container = [] <;>
      simp [onPublishEvent, h, List.length_eq_zero]

/-- C3 counterexample: one message then a click on the close button
leaves the panel hidden while the message element is still in the
container, so visibility does not match non-emptiness there. -/
theorem c3_counterexample :
    ¬ ((run [Ev.message, Ev.closeClick] initState).visible = true ↔
        (run [Ev.message, Ev.closeClick] initState).container ≠ []) := by
  decide

/-- One coupled-alphabet step preserves the visibility invariant. -/
theorem tameStep_preserves_visibleIffNonempty (e : TameEv) (s : PanelState)
    (h : visibleIffNonempty s) : visibleIffNonempty (tameStep e s) := by
  cases e with
  | message =>
    by_cases hc : s.container = []
    · simp [tameStep, onPublishEvent, visibleIffNonempty, hc, List.length_eq_zero]
    · have hv : s.visible = true := h.2 hc
      simp [tameStep, onPublishEvent, visibleIffNonempty, hc, hv, List.length_eq_zero]
  | timerFire i =>
    simp only [tameStep, fireTimer, timeoutCallback, removeMsgEl]
    split
    · split
      · split
        · rename_i h0
          have he : s.container.erase i = [] := List.length_eq_zero.mp h0
          simp [visibleIffNonempty, he]
        · rename_i h0
          have hne : s.container.erase i ≠ [] := fun hcc => h0 (by simp [hcc])
          have hcne : s.container ≠ [] := fun hcc => hne (by simp [hcc])
          have hv : s.visible = true := h.2 hcne
          simp [visibleIffNonempty, hne, hv]
      · exact h
    · exact h
  | mouseEnter =>
    simpa [tameStep, onMouseEnter, visibleIffNonempty] using h
  | closeThenHide =>
    simp [tameStep, onCloseClick, onHideEvent, visibleIffNonempty]

/-- Coupled-alphabet runs preserve the visibility invariant. -/
theorem tameRun_preserves_visibleIffNonempty (evs : List TameEv) :
    ∀ s : PanelState, visibleIffNonempty s → visibleIffNonempty (tameRun evs s) := by
  induction evs with
  | nil => exact fun _ h => h
  | cons e evs ih =>
    intro s h
    exact ih (tameStep e s) (tameStep_preserves_visibleIffNonempty e s h)

/-- C3 amended: over message arrivals, timer firings and pointer-enters,
with each manual close immediately followed by the panel `hide` cleanup,
every reachable state has the panel visible exactly when the container
is non-empty.  A stand-alone close click breaks the invariant, as
`c3_counterexample` records. -/
theorem c3_visible_iff_nonempty_with_coupled_close (evs : List TameEv) :
    (tameRun evs initState).visible = true ↔
      (tameRun evs initState).container ≠ [] :=
  tameRun_preserves_visibleIffNonempty evs initState
    (by simp [visibleIffNonempty, initState])

/-- C5: when the pending 4000ms timer of message `i` fires while
`data-autohide` is `'true'`, the message element is removed (after its
400ms fade), and if it was the only element left in the container the
panel is hidden. -/
theorem c5_timer_with_autohide_removes (s : PanelState) (i : Nat)
    (hp : i ∈ s.pending) (hnd : s.container.Nodup)
    (ha : s.autohideAttr = AttrVal.strTrue) :
    i ∉ (fireTimer i s).container ∧
      (s.container = [i] → (fireTimer i s).visible = false) ∧
      publishTimeoutMs = 4000 ∧ msgFadeOutMs = 400 := by
  have hfire : fireTimer i s = removeMsgEl i { s with pending := s.pending.erase i } := by
    simp [fireTimer, timeoutCallback, hp, ha]
  rw [hfire]
  simp only [removeMsgEl]
  refine ⟨?_, ?_, rfl, rfl⟩
  · split <;> simpa using hnd.not_mem_erase
  · intro hlast
    rw [hlast]
    simp

/-- Witness for C5: a single pending message with autohide on; its timer
fire removes it and hides the panel. -/
theorem c5_timer_with_autohide_removes_witness :
    0 ∉ (fireTimer 0 freshOneMsg).container ∧
      (fireTimer 0 freshOneMsg).visible = false :=
  ⟨(c5_timer_with_autohide_removes freshOneMsg 0 (by decide) (by decide) rfl).1,
    (c5_timer_with_autohide_removes freshOneMsg 0 (by decide) (by decide) rfl).2.1 rfl⟩

/-- A lingering message element survives every single event other than
the `hide` cleanup, and its spent timer is never rescheduled. -/
theorem lingering_step (i : Nat) (e : Ev) (he : e ≠ Ev.hideEvent)
    (s : PanelState) (h : lingering i s) : lingering i (step e s) := by
  obtain ⟨hc, hpnd, hlt⟩ := h
  cases e with
  | message =>
    simp only [step, onPublishEvent]
    split <;>
      exact ⟨by simp [hc], by simp [List.mem_cons, hpnd]; omega, by simp; omega⟩
  | timerFire j =>
    simp only [step, fireTimer, timeoutCallback, removeMsgEl]
    split
    · rename_i hj
      have hij : i ≠ j := fun hEq => hpnd (hEq ▸ hj)
      split
      · split <;>
          exact ⟨by simpa using (List.mem_erase_of_ne hij).2 hc,
            by simpa using fun hm => hpnd (List.mem_of_mem_erase hm), by simpa using hlt⟩
      · exact ⟨hc, fun hm => hpnd (List.mem_of_mem_erase hm), hlt⟩
    · exact ⟨hc, hpnd, hlt⟩
  | mouseEnter => exact ⟨hc, hpnd, hlt⟩
  | closeClick => exact ⟨hc, hpnd, hlt⟩
  | hideEvent => exact absurd rfl he

/-- A lingering message element survives every run that contains no
`hide` cleanup. -/
theorem lingering_run (i : Nat) (evs : List Ev) :
    Ev.hideEvent ∉ evs →
      ∀ s : PanelState, lingering i s → lingering i (run evs s) := by
  induction evs with
  | nil => exact fun _ _ h => h
  | cons e evs ih =>
    intro hnh s h
    have he : e ≠ Ev.hideEvent := fun heq => hnh (by rw [heq]; exact List.mem_cons_self _ _)
    have h2 : Ev.hideEvent ∉ evs := fun hm => hnh (List.mem_cons_of_mem e hm)
    exact ih h2 (step e s) (lingering_step i e he s h)

/-- C6: when the pending 4000ms timer of message `i` fires while
`data-autohide` is not `'true'`, nothing is removed; the fire consumes
the only scheduled check, no timer is rescheduled for `i`, and the
element stays in the container across any later events that do not
include the `hide` cleanup. -/
theorem c6_timer_with_autohide_off_never_removes (s : PanelState) (i : Nat)
    (hp : i ∈ s.pending) (hc : i ∈ s.container) (hfresh : i < s.nextId)
    (hnd : s.pending.Nodup) (ha : s.autohideAttr ≠ AttrVal.strTrue)
    (evs : List Ev) (hnh : Ev.hideEvent ∉ evs) :
    (fireTimer i s).container = s.container ∧
      i ∉ (fireTimer i s).pending ∧
      i ∈ (run evs (fireTimer i s)).container ∧
      i ∉ (run evs (fireTimer i s)).pending := by
  have hfire : fireTimer i s = { s with pending := s.pending.erase i } := by
    simp [fireTimer, timeoutCallback, hp, ha]
  have hling : lingering i (fireTimer i s) := by
    rw [hfire]; exact ⟨hc, hnd.not_mem_erase, hfresh⟩
  have hrun := lingering_run i evs hnh (fireTimer i s) hling
  exact ⟨by rw [hfire], hling.2.1, hrun.1, hrun.2.1⟩

/-- Witness for C6: one hovered message whose timer fires, then another
message arrives, the new timer fires, the close button is clicked and
the pointer enters again; message 0 is still attached throughout and its
timer stays spent. -/
theorem c6_timer_with_autohide_off_never_removes_witness :
    (fireTimer 0 hoveredOneMsg).container = [0] ∧
      0 ∉ (fireTimer 0 hoveredOneMsg).pending ∧
      0 ∈ (run [Ev.message, Ev.timerFire 1, Ev.closeClick, Ev.mouseEnter]
        (fireTimer 0 hoveredOneMsg)).container ∧
      0 ∉ (run [Ev.message, Ev.timerFire 1, Ev.closeClick, Ev.mouseEnter]
        (fireTimer 0 hoveredOneMsg)).pending :=
  c6_timer_with_autohide_off_never_removes hoveredOneMsg 0
    (by decide) (by decide) (by decide) (by decide) (by decide)
    [Ev.message, Ev.timerFire 1, Ev.closeClick, Ev.mouseEnter] (by decide)

/-- A closed subscription stays closed under every event sequence. -/
theorem sseRun_closed (evs : List SseEv) :
    ∀ s : SseState, s.isOpen = false → (sseRun evs s).isOpen = false := by
  induction evs with
  | nil => exact fun _ h => h
  | cons e evs ih =>
    intro s h
    have hstep : sseStep e s = s := by simp [sseStep, h]
    show (sseRun evs (sseStep e s)).isOpen = false
    rw [hstep]
    exact ih s h

/-- C9: a transport error on the open subscription logs the error and
closes the subscription at once, and no later sequence of deliveries
reopens it: the embedding of the script has no retry transition, and
`source.onerror` is its only error transition. -/
theorem c9_error_fail_stop (s : SseState) (h : s.isOpen = true)
    (evs : List SseEv) :
    (sseStep SseEv.errorEv s).isOpen = false ∧
      (sseStep SseEv.errorEv s).loggedErrors = s.loggedErrors + 1 ∧
      (sseRun evs (sseStep SseEv.errorEv s)).isOpen = false := by
  have herr : sseStep SseEv.errorEv s = onSseError s := by simp [sseStep, h]
  refine ⟨by rw [herr]; rfl, by rw [herr]; rfl, ?_⟩
  exact sseRun_closed evs _ (by rw [herr]; rfl)

/-- Witness for C9: the initial subscription receives an error; it is
closed, the error is logged, and a later message and error leave it
closed. -/
theorem c9_error_fail_stop_witness :
    (sseStep SseEv.errorEv sseInit).isOpen = false ∧
      (sseStep SseEv.errorEv sseInit).loggedErrors = sseInit.loggedErrors + 1 ∧
      (sseRun [SseEv.messageEv, SseEv.errorEv]
        (sseStep SseEv.errorEv sseInit)).isOpen = false :=
  c9_error_fail_stop sseInit rfl [SseEv.messageEv, SseEv.errorEv]

end Foodtruck
